import Mathlib

/-!
Formal model of the Reward Engine of the productivity backend
(`app/services/gamification_service.py` and `app/routers/rewards.py`).

Randomness is shallow-embedded: every call to the random source becomes an
explicit natural-number argument.  `random.choices(pop, weights)` becomes a
cumulative-weight scan over an integer draw (weights are the float
probabilities of the source scaled by 100, which preserves proportion
exactly), and `random.choice(items)` becomes indexing by `k % items.length`.
Dictionary lookups with a default (`d.get(key, default)`) become total
functions on `String`.
-/

namespace Gamification

/-- The static loot catalog `LOOT_POOL`: items available per rarity.
Unknown rarities give `[]`, matching `LOOT_POOL.get(rarity, [])`. -/
def LOOT_POOL (rarity : String) : List String :=
  if rarity = "commun" then ["fish_blue", "small_plant", "bubble_small"]
  else if rarity = "atypique" then ["fish_yellow", "coral_blue", "plant_medium"]
  else if rarity = "rare" then ["fish_red", "coral_large", "plant_big"]
  else if rarity = "épique" then ["fish_shiny", "statue_small", "coral_pink"]
  else if rarity = "exotique" then ["fish_dragon", "coral_gold", "plant_glow"]
  else []

/-- The display-name table `LOOT_NAMES`; `none` models a missing key. -/
def LOOT_NAMES (item_id : String) : Option String :=
  if item_id = "fish_blue" then some "Petit Poisson Bleu"
  else if item_id = "small_plant" then some "Petite Plante"
  else if item_id = "bubble_small" then some "Petite Bulle"
  else if item_id = "fish_yellow" then some "Poisson Jaune"
  else if item_id = "coral_blue" then some "Corail Bleu"
  else if item_id = "plant_medium" then some "Plante Moyenne"
  else if item_id = "fish_red" then some "Poisson Rouge"
  else if item_id = "coral_large" then some "Grand Corail"
  else if item_id = "plant_big" then some "Grande Plante"
  else if item_id = "fish_shiny" then some "Poisson Scintillant"
  else if item_id = "statue_small" then some "Petite Statue"
  else if item_id = "coral_pink" then some "Corail Rose"
  else if item_id = "fish_dragon" then some "Poisson Dragon"
  else if item_id = "coral_gold" then some "Corail Doré"
  else if item_id = "plant_glow" then some "Plante Lumineuse"
  else none

/-- `CHEST_PROBABILITIES`: per chest tier, the weights over the five
rarities.  The float probabilities of the source are scaled by 100 to
integers (0.75 becomes 75, and so on); `none` models a tier that is not a
key of the dictionary. -/
def CHEST_PROBABILITIES (chest_type : String) : Option (List (String × Nat)) :=
  if chest_type = "basic" then
    some [("commun", 75), ("atypique", 15), ("rare", 7), ("épique", 2), ("exotique", 1)]
  else if chest_type = "rare" then
    some [("commun", 50), ("atypique", 25), ("rare", 15), ("épique", 7), ("exotique", 3)]
  else if chest_type = "epic" then
    some [("commun", 30), ("atypique", 25), ("rare", 20), ("épique", 15), ("exotique", 10)]
  else if chest_type = "exotic" then
    some [("commun", 5), ("atypique", 10), ("rare", 20), ("épique", 30), ("exotique", 35)]
  else none

/-- `get_chest_type`: maps a streak to a chest tier. -/
def get_chest_type (streak : Nat) : String :=
  if streak ≥ 14 then "exotic"
  else if streak ≥ 7 then "epic"
  else if streak ≥ 3 then "rare"
  else "basic"

/-- Richness order on the four chest tiers, used to state monotonicity. -/
def tier_rank (t : String) : Nat :=
  if t = "basic" then 0
  else if t = "rare" then 1
  else if t = "epic" then 2
  else 3

/-- Claim C6: `get_chest_type` is total over all non-negative streaks,
returns one of the four tiers, maps [0,3) to basic, [3,7) to rare,
[7,14) to epic and [14,∞) to exotic (with the stated boundary values),
and its tier richness is monotonically non-decreasing in the streak. -/
theorem get_chest_type_spec :
    (∀ s : Nat, get_chest_type s ∈ ["basic", "rare", "epic", "exotic"]) ∧
    (∀ s : Nat, s < 3 → get_chest_type s = "basic") ∧
    (∀ s : Nat, 3 ≤ s → s < 7 → get_chest_type s = "rare") ∧
    (∀ s : Nat, 7 ≤ s → s < 14 → get_chest_type s = "epic") ∧
    (∀ s : Nat, 14 ≤ s → get_chest_type s = "exotic") ∧
    (get_chest_type 2 = "basic" ∧ get_chest_type 3 = "rare" ∧
     get_chest_type 6 = "rare" ∧ get_chest_type 7 = "epic" ∧
     get_chest_type 13 = "epic" ∧ get_chest_type 14 = "exotic") ∧
    (∀ s t : Nat, s ≤ t → tier_rank (get_chest_type s) ≤ tier_rank (get_chest_type t)) := by
  refine ⟨?_, ?_, ?_, ?_, ?_, by decide, ?_⟩
  · intro s
    unfold get_chest_type
    split_ifs <;> simp
  · intro s hs
    unfold get_chest_type
    split_ifs <;> first | rfl | omega
  · intro s hs hs7
    unfold get_chest_type
    split_ifs <;> first | rfl | omega
  · intro s hs hs14
    unfold get_chest_type
    split_ifs <;> first | rfl | omega
  · intro s hs
    unfold get_chest_type
    split_ifs <;> first | rfl | omega
  · intro s t hst
    unfold get_chest_type
    split_ifs <;> first | decide | omega

/-- Witness for C6: the interval and monotonicity statements hold at
concrete streak values. -/
theorem get_chest_type_spec_witness :
    get_chest_type 2 = "basic" ∧ get_chest_type 8 = "epic" ∧
    tier_rank (get_chest_type 3) ≤ tier_rank (get_chest_type 10) :=
  ⟨get_chest_type_spec.2.1 2 (by omega),
   get_chest_type_spec.2.2.2.1 8 (by omega) (by omega),
   get_chest_type_spec.2.2.2.2.2.2 3 10 (by omega)⟩

/-- Weighted discrete sampling, modelling `random.choices(pop, weights)`:
the random source supplies a draw `r`; the first entry whose cumulative
weight exceeds `r` is chosen (a draw beyond the total weight lands on the
last entry). -/
def weighted_choice : List (String × Nat) → Nat → String
  | [], _ => ""
  | [(s, _)], _ => s
  | (s, w) :: p :: rest, r => if r < w then s else weighted_choice (p :: rest) (r - w)

/-- The body of `choose_loot`, with the loot catalog as an explicit
parameter (the source reads the module-level `LOOT_POOL`); `kr` is the
draw for the rarity, `ki` the draw for the item.  An unknown tier is
replaced by `"basic"`; an empty item pool yields the hard-coded default
`"fish_blue"` (`random.choice(items) if items else "fish_blue"`). -/
def choose_loot_pool (pool : String → List String) (chest_type : String)
    (kr ki : Nat) : String × String :=
  let ct := if (CHEST_PROBABILITIES chest_type).isSome then chest_type else "basic"
  let probas := (CHEST_PROBABILITIES ct).getD []
  let chosen_rarity := weighted_choice probas kr
  let items := pool chosen_rarity
  let chosen_item := if items.isEmpty then "fish_blue"
                     else items.getD (ki % items.length) "fish_blue"
  (chosen_rarity, chosen_item)

/-- `choose_loot` as shipped: the body applied to the static catalog. -/
def choose_loot (chest_type : String) (kr ki : Nat) : String × String :=
  choose_loot_pool LOOT_POOL chest_type kr ki

/-- Modelled from the spec: the Loot Sampler as §4.2 describes it, which
must fail with a configuration error when the selected rarity has an empty
item pool, instead of returning an item. -/
def choose_loot_specModel (pool : String → List String) (chest_type : String)
    (kr ki : Nat) : Except String (String × String) :=
  let ct := if (CHEST_PROBABILITIES chest_type).isSome then chest_type else "basic"
  let probas := (CHEST_PROBABILITIES ct).getD []
  let chosen_rarity := weighted_choice probas kr
  let items := pool chosen_rarity
  if items.isEmpty then Except.error "ConfigurationError"
  else Except.ok (chosen_rarity, items.getD (ki % items.length) "")

/-- Counterexample to claim C2: with an empty catalog, the draw on a basic
chest selects rarity `"commun"` whose pool is empty, and the code returns
the regular item `"fish_blue"` — a member of the shipped catalog — where
the spec model fails with a configuration error.  The draw does not fail. -/
theorem choose_loot_empty_pool_returns_item :
    choose_loot_pool (fun _ => []) "basic" 0 0 = ("commun", "fish_blue") ∧
    "fish_blue" ∈ LOOT_POOL "commun" ∧
    choose_loot_specModel (fun _ => []) "basic" 0 0 = Except.error "ConfigurationError" := by
  refine ⟨rfl, ?_, rfl⟩
  unfold LOOT_POOL
  simp

/-- Claim C2 amended: whenever the selected rarity has an empty item pool,
`choose_loot` does not fail: it returns the hard-coded default item
`"fish_blue"` for that rarity. -/
theorem choose_loot_empty_pool_default (pool : String → List String)
    (chest_type : String) (kr ki : Nat)
    (h : pool (choose_loot_pool pool chest_type kr ki).1 = []) :
    choose_loot_pool pool chest_type kr ki =
      ((choose_loot_pool pool chest_type kr ki).1, "fish_blue") := by
  unfold choose_loot_pool at *
  simp only [h, List.isEmpty_nil, if_true]

/-- Witness for the amended C2: with the empty catalog and a basic chest,
the default item is returned. -/
theorem choose_loot_empty_pool_default_witness :
    choose_loot_pool (fun _ => []) "basic" 0 0 =
      ((choose_loot_pool (fun _ => []) "basic" 0 0).1, "fish_blue") :=
  choose_loot_empty_pool_default (fun _ => []) "basic" 0 0 rfl

/-- Claim C7: a chest-tier input that is not one of the four known tiers
does not fail; the draw proceeds exactly as for `"basic"`, so every
outcome of the random source gives the same result as
`choose_loot "basic"` — the two functions have the same distribution. -/
theorem choose_loot_unknown_tier_defaults_to_basic (chest_type : String)
    (h : chest_type ∉ ["basic", "rare", "epic", "exotic"]) :
    ∀ kr ki : Nat, choose_loot chest_type kr ki = choose_loot "basic" kr ki := by
  intro kr ki
  simp only [List.mem_cons, List.not_mem_nil, or_false, not_or] at h
  obtain ⟨h1, h2, h3, h4⟩ := h
  unfold choose_loot choose_loot_pool CHEST_PROBABILITIES
  simp [h1, h2, h3, h4]

/-- Witness for C7: the unknown tier `"gold"` draws exactly like basic. -/
theorem choose_loot_unknown_tier_defaults_to_basic_witness :
    choose_loot "gold" 0 0 = choose_loot "basic" 0 0 :=
  choose_loot_unknown_tier_defaults_to_basic "gold" (by decide) 0 0

/-- The gamification fields of a `User` row that the Reward Engine reads
and writes (`app/models/user.py`); `inventory` is a nullable JSON list. -/
structure UserState where
  id : Nat
  current_streak : Nat
  days_without_tasks : Nat
  inventory : Option (List String)
deriving Repr, DecidableEq

/-- `add_to_inventory`: a `None` inventory is first replaced by the empty
list; an already-owned item is rerolled uniformly among the unowned items
of the same rarity (`k` is the draw of the random source), and if none is
available the call returns `(false, item_id)` without touching the owned
set; finally the (possibly rerolled) item is appended if not yet owned.
Returns the pair `(success, final_item_id)` and the updated user. -/
def add_to_inventory (user : UserState) (item_id : String) (rarity : String)
    (k : Nat) : (Bool × String) × UserState :=
  let inv := user.inventory.getD []
  if item_id ∈ inv then
    let items_of_rarity := LOOT_POOL rarity
    let available_items := items_of_rarity.filter (fun i => decide (i ∉ inv))
    if available_items.isEmpty then
      ((false, item_id), { user with inventory := some inv })
    else
      let new_id := available_items.getD (k % available_items.length) item_id
      let inv2 := if new_id ∈ inv then inv else inv ++ [new_id]
      ((true, new_id), { user with inventory := some inv2 })
  else
    ((true, item_id), { user with inventory := some (inv ++ [item_id]) })

/-- Indexing a nonempty list by a draw modulo its length lands in the list. -/
theorem getD_mod_mem {α : Type} (l : List α) (k : Nat) (d : α) (h : l ≠ []) :
    l.getD (k % l.length) d ∈ l := by
  have hlen : 0 < l.length := List.length_pos.mpr h
  have hk : k % l.length < l.length := Nat.mod_lt _ hlen
  rw [List.getD_eq_getElem l d hk]
  exact List.getElem_mem hk

/-- Claim C9: a user whose `inventory` is `None` is handled without
failure: the inventory is initialized to the empty list, the drawn item is
added, and the call returns `(true, drawn_item)`. -/
theorem add_to_inventory_none_inventory (user : UserState) (item_id rarity : String)
    (k : Nat) (h : user.inventory = none) :
    add_to_inventory user item_id rarity k =
      ((true, item_id), { user with inventory := some [item_id] }) := by
  unfold add_to_inventory
  simp [h]

/-- Witness for C9: a concrete uninitialized user receives the drawn item. -/
theorem add_to_inventory_none_inventory_witness :
    add_to_inventory ⟨1, 0, 0, none⟩ "fish_blue" "commun" 0 =
      ((true, "fish_blue"), ⟨1, 0, 0, some ["fish_blue"]⟩) :=
  add_to_inventory_none_inventory ⟨1, 0, 0, none⟩ "fish_blue" "commun" 0 rfl

/-- `get_loot_name`: display name from the table, or the id itself. -/
def get_loot_name (item_id : String) : String :=
  (LOOT_NAMES item_id).getD item_id

/-- Claim C10: `get_loot_name` is total — it returns the display name of a
catalogued id and the id itself otherwise, so the `item_name` field of the
reward response always resolves. -/
theorem get_loot_name_total :
    ∀ item_id : String,
      (∀ n, LOOT_NAMES item_id = some n → get_loot_name item_id = n) ∧
      (LOOT_NAMES item_id = none → get_loot_name item_id = item_id) := by
  intro item_id
  constructor
  · intro n hn
    unfold get_loot_name
    rw [hn]
    rfl
  · intro hn
    unfold get_loot_name
    rw [hn]
    rfl

/-- Witness for C10: a catalogued id resolves to its display name and an
unknown id resolves to itself. -/
theorem get_loot_name_total_witness :
    get_loot_name "fish_blue" = "Petit Poisson Bleu" ∧
    get_loot_name "unknown_item" = "unknown_item" :=
  ⟨(get_loot_name_total "fish_blue").1 "Petit Poisson Bleu" rfl,
   (get_loot_name_total "unknown_item").2 rfl⟩

/-- Claim C4: when the drawn item is owned and every item of its rarity
pool is owned, `add_to_inventory` returns `(false, drawn_item)` and the
user — in particular the owned set — is unchanged: no mutation and no
cross-rarity fallback. -/
theorem add_to_inventory_exhausted (user : UserState) (inv : List String)
    (item_id rarity : String) (k : Nat)
    (hinv : user.inventory = some inv) (hmem : item_id ∈ inv)
    (hall : ∀ i ∈ LOOT_POOL rarity, i ∈ inv) :
    add_to_inventory user item_id rarity k = ((false, item_id), user) := by
  obtain ⟨uid, cs, dwt, uinv⟩ := user
  simp only at hinv
  subst hinv
  unfold add_to_inventory
  simp only [Option.getD_some]
  rw [if_pos hmem]
  have hfil : (LOOT_POOL rarity).filter (fun i => decide (i ∉ inv)) = [] := by
    rw [List.filter_eq_nil_iff]
    intro a ha
    simp [hall a ha]
  simp only [hfil, List.isEmpty_nil, if_true]

/-- Witness for C4: a user owning the whole `commun` pool draws an owned
item and gets `(false, item)` with an unchanged user. -/
theorem add_to_inventory_exhausted_witness :
    add_to_inventory ⟨1, 0, 0, some ["fish_blue", "small_plant", "bubble_small"]⟩
        "fish_blue" "commun" 5 =
      ((false, "fish_blue"), ⟨1, 0, 0, some ["fish_blue", "small_plant", "bubble_small"]⟩) :=
  add_to_inventory_exhausted _ ["fish_blue", "small_plant", "bubble_small"]
    "fish_blue" "commun" 5 rfl (by decide) (by decide)

/-- Claim C5: on a duplicate-free owned set, an unowned drawn item is
added and returned as `(true, drawn_item)`; an owned drawn item with a
non-exhausted rarity pool leads to a reroll: for every outcome of the
random source some candidate of `pool(rarity) − owned` is added and
returned as `(true, chosen)`, and every candidate is the outcome for some
draw of the random source. -/
theorem add_to_inventory_grants (user : UserState) (inv : List String)
    (item_id rarity : String) (hinv : user.inventory = some inv) (hnd : inv.Nodup) :
    (item_id ∉ inv →
      ∀ k, add_to_inventory user item_id rarity k =
        ((true, item_id), { user with inventory := some (inv ++ [item_id]) })) ∧
    (item_id ∈ inv →
      (LOOT_POOL rarity).filter (fun i => decide (i ∉ inv)) ≠ [] →
      (∀ k, ∃ c, c ∈ LOOT_POOL rarity ∧ c ∉ inv ∧
        add_to_inventory user item_id rarity k =
          ((true, c), { user with inventory := some (inv ++ [c]) })) ∧
      (∀ c ∈ (LOOT_POOL rarity).filter (fun i => decide (i ∉ inv)),
        ∃ k, add_to_inventory user item_id rarity k =
          ((true, c), { user with inventory := some (inv ++ [c]) }))) := by
  constructor
  · intro hno k
    unfold add_to_inventory
    simp [hinv, hno]
  · intro hmem hne
    have hstep : ∀ (c : String) (k : Nat),
        c ∈ (LOOT_POOL rarity).filter (fun i => decide (i ∉ inv)) →
        ((LOOT_POOL rarity).filter (fun i => decide (i ∉ inv))).getD
            (k % ((LOOT_POOL rarity).filter (fun i => decide (i ∉ inv))).length) item_id = c →
        add_to_inventory user item_id rarity k =
          ((true, c), { user with inventory := some (inv ++ [c]) }) := by
      intro c k hc hgetD
      have hcpool : c ∈ LOOT_POOL rarity ∧ c ∉ inv := by
        have := List.mem_filter.mp hc
        exact ⟨this.1, by simpa using this.2⟩
      unfold add_to_inventory
      rw [hinv]
      simp only [Option.getD_some]
      rw [if_pos hmem]
      rw [if_neg (by simpa using hne)]
      simp only [hgetD]
      rw [if_neg hcpool.2]
    constructor
    · intro k
      set avail := (LOOT_POOL rarity).filter (fun i => decide (i ∉ inv)) with havail
      have hcmem : avail.getD (k % avail.length) item_id ∈ avail :=
        getD_mod_mem avail k item_id hne
      have hcprops := List.mem_filter.mp hcmem
      exact ⟨avail.getD (k % avail.length) item_id, hcprops.1, by simpa using hcprops.2,
        hstep _ k hcmem rfl⟩
    · intro c hc
      set avail := (LOOT_POOL rarity).filter (fun i => decide (i ∉ inv)) with havail
      obtain ⟨i, hi, hig⟩ := List.mem_iff_getElem.mp hc
      refine ⟨i, hstep c i hc ?_⟩
      rw [Nat.mod_eq_of_lt hi, List.getD_eq_getElem avail item_id hi, hig]

/-- Witness for C5: a user with an empty inventory draws the unowned item
`fish_blue`, which is added and returned with success. -/
theorem add_to_inventory_grants_witness :
    add_to_inventory ⟨1, 0, 0, some []⟩ "fish_blue" "commun" 0 =
      ((true, "fish_blue"), ⟨1, 0, 0, some ["fish_blue"]⟩) :=
  (add_to_inventory_grants ⟨1, 0, 0, some []⟩ [] "fish_blue" "commun" rfl
    (by decide)).1 (by decide) 0

/-- A sequence of reconcile calls: each draw is the triple
`(item_id, rarity, random draw)`, applied in order to the user state. -/
def apply_draws (user : UserState) (draws : List (String × String × Nat)) : UserState :=
  draws.foldl (fun u d => (add_to_inventory u d.1 d.2.1 d.2.2).2) user

/-- One `add_to_inventory` call keeps the owned set duplicate-free. -/
theorem add_to_inventory_step_nodup (user : UserState) (item_id rarity : String)
    (k : Nat) (h : (user.inventory.getD []).Nodup) :
    (((add_to_inventory user item_id rarity k).2).inventory.getD []).Nodup := by
  unfold add_to_inventory
  by_cases hmem : item_id ∈ user.inventory.getD []
  · rw [if_pos hmem]
    by_cases hav : ((LOOT_POOL rarity).filter
        (fun i => decide (i ∉ user.inventory.getD []))).isEmpty
    · rw [if_pos hav]
      simpa using h
    · rw [if_neg hav]
      have hne : (LOOT_POOL rarity).filter
          (fun i => decide (i ∉ user.inventory.getD [])) ≠ [] := by
        simpa [List.isEmpty_iff] using hav
      have hcmem := getD_mod_mem _ k item_id hne
      have hcnot : ((LOOT_POOL rarity).filter
          (fun i => decide (i ∉ user.inventory.getD []))).getD
            (k % ((LOOT_POOL rarity).filter
              (fun i => decide (i ∉ user.inventory.getD []))).length) item_id ∉
            user.inventory.getD [] := by
        have := (List.mem_filter.mp hcmem).2
        simpa using this
      simp only [hcnot, if_false, Option.getD_some]
      exact List.Nodup.append h (List.nodup_singleton _)
        (by simpa [List.disjoint_singleton] using hcnot)
  · rw [if_neg hmem]
    simp only [Option.getD_some]
    exact List.Nodup.append h (List.nodup_singleton _)
      (by simpa [List.disjoint_singleton] using hmem)

/-- Claim C3: `add_to_inventory` preserves freedom from duplicates — one
call maps a duplicate-free owned set to a duplicate-free owned set, and
hence any sequence of calls starting from a duplicate-free inventory
(including repeated draws of an already-owned item) keeps it
duplicate-free. -/
theorem add_to_inventory_nodup_invariant :
    (∀ (user : UserState) (item_id rarity : String) (k : Nat),
      (user.inventory.getD []).Nodup →
      (((add_to_inventory user item_id rarity k).2).inventory.getD []).Nodup) ∧
    (∀ (draws : List (String × String × Nat)) (user : UserState),
      (user.inventory.getD []).Nodup →
      ((apply_draws user draws).inventory.getD []).Nodup) := by
  refine ⟨add_to_inventory_step_nodup, ?_⟩
  intro draws
  induction draws with
  | nil => intro user h; simpa [apply_draws] using h
  | cons d rest ih =>
      intro user h
      have hstep := add_to_inventory_step_nodup user d.1 d.2.1 d.2.2 h
      simpa [apply_draws, List.foldl_cons] using ih _ hstep

/-- Witness for C3: five repeated draws of the same owned item leave a
concrete duplicate-free inventory duplicate-free. -/
theorem add_to_inventory_nodup_invariant_witness :
    ((apply_draws ⟨1, 0, 0, some ["fish_blue"]⟩
        [("fish_blue", "commun", 0), ("fish_blue", "commun", 0),
         ("fish_blue", "commun", 0), ("fish_blue", "commun", 0),
         ("fish_blue", "commun", 0)]).inventory.getD []).Nodup :=
  add_to_inventory_nodup_invariant.2
    [("fish_blue", "commun", 0), ("fish_blue", "commun", 0),
     ("fish_blue", "commun", 0), ("fish_blue", "commun", 0),
     ("fish_blue", "commun", 0)] ⟨1, 0, 0, some ["fish_blue"]⟩ (by decide)

/-- `update_streak` as shipped: despite its docstring, the body only
returns the current counters; the transition logic is deferred to a
`complete_task` path that does not exist.  `today` models the optional
`date` argument, which the body never uses. -/
def update_streak (user : UserState) (today : Option Nat) : Nat × Nat :=
  (user.current_streak, user.days_without_tasks)

/-- Modelled from the spec: the daily Streak Tracker transition of §4.4
(also stated in the docstring of `update_streak`), restricted to the facts
a single day provides — were tasks due, was at least one completed.  A
completed day increments the streak and zeroes `days_without_tasks`; a day
without due tasks increments `days_without_tasks`; a due-but-uncompleted
day zeroes the streak; afterwards a `days_without_tasks` of 3 or more
zeroes the streak. -/
def streak_transition_spec (current_streak days_without_tasks : Nat)
    (tasks_due completed : Bool) : Nat × Nat :=
  let p :=
    if !tasks_due then (current_streak, days_without_tasks + 1)
    else if completed then (current_streak + 1, 0)
    else (0, days_without_tasks)
  if p.2 ≥ 3 then (0, p.2) else p

/-- Claim C1 (code bug): `update_streak` never applies the documented
transition — it returns the counters unchanged for every user and every
day.  At the concrete state (streak 5, 2 days without tasks) with a task
due and completed, the code yields (5, 2) while the documented transition
yields (6, 0). -/
theorem update_streak_is_stub :
    (∀ (user : UserState) (today : Option Nat),
      update_streak user today = (user.current_streak, user.days_without_tasks)) ∧
    update_streak ⟨1, 5, 2, some []⟩ (some 0) = (5, 2) ∧
    streak_transition_spec 5 2 true true = (6, 0) ∧
    update_streak ⟨1, 5, 2, some []⟩ (some 0) ≠ streak_transition_spec 5 2 true true := by
  refine ⟨fun user today => rfl, rfl, rfl, ?_⟩
  decide

/-- A task row as the Reward Engine sees it (`app/models/task.py`): its
primary key and its owner. -/
structure TaskRow where
  id : Nat
  user_id : Nat
deriving Repr, DecidableEq

/-- The persistent state the `/rewards/open-chest` endpoint touches:
the user rows and the task rows. -/
structure ServerState where
  users : List UserState
  tasks : List TaskRow
deriving Repr, DecidableEq

/-- The response schema of `/rewards/open-chest`. -/
structure OpenChestResponse where
  chest_type : String
  rarity : String
  item_id : String
  item_name : String
  current_streak : Nat
  days_without_tasks : Nat
  inventory_count : Nat
deriving Repr, DecidableEq

/-- The `open_chest` endpoint (`app/routers/rewards.py`): look up the task
by id restricted to the authenticated caller; on failure raise 404 before
any mutation; on success classify the chest from the streak, draw loot
(`kr`, `ki` are the rarity and item draws), reconcile the inventory
(`kj` the reroll draw), persist the updated user, and build the response. -/
def open_chest (st : ServerState) (current_user : UserState) (task_id : Nat)
    (kr ki kj : Nat) : Except Nat OpenChestResponse × ServerState :=
  match st.tasks.find? (fun t => t.id == task_id && t.user_id == current_user.id) with
  | none => (Except.error 404, st)
  | some _ =>
    let ct := get_chest_type current_user.current_streak
    let rl := choose_loot ct kr ki
    let res := add_to_inventory current_user rl.2 rl.1 kj
    let user2 := res.2
    let st2 := { st with
      users := st.users.map (fun u => if u.id == current_user.id then user2 else u) }
    (Except.ok
      { chest_type := ct
        rarity := rl.1
        item_id := res.1.2
        item_name := get_loot_name res.1.2
        current_streak := user2.current_streak
        days_without_tasks := user2.days_without_tasks
        inventory_count := (user2.inventory.getD []).length }, st2)

/-- Claim C8: when no task with the requested id belongs to the caller —
the id is absent or the task is owned by a different user — `open_chest`
returns 404 and the stored state is returned untouched: every user's
inventory and counters are unchanged. -/
theorem open_chest_not_found (st : ServerState) (current_user : UserState)
    (task_id kr ki kj : Nat)
    (h : ∀ t ∈ st.tasks, ¬(t.id = task_id ∧ t.user_id = current_user.id)) :
    open_chest st current_user task_id kr ki kj = (Except.error 404, st) := by
  unfold open_chest
  have hfind : st.tasks.find?
      (fun t => t.id == task_id && t.user_id == current_user.id) = none := by
    rw [List.find?_eq_none]
    intro t ht
    simp only [Bool.and_eq_true, beq_iff_eq, not_and]
    intro h1 h2
    exact h t ht ⟨h1, h2⟩
  rw [hfind]

/-- Witness for C8: user 1 redeems against task 10, which belongs to
user 2; the call returns 404 and leaves both users' rows unchanged. -/
theorem open_chest_not_found_witness :
    open_chest ⟨[⟨1, 0, 0, some []⟩, ⟨2, 3, 1, some ["fish_red"]⟩], [⟨10, 2⟩]⟩
        ⟨1, 0, 0, some []⟩ 10 0 0 0 =
      (Except.error 404, ⟨[⟨1, 0, 0, some []⟩, ⟨2, 3, 1, some ["fish_red"]⟩], [⟨10, 2⟩]⟩) :=
  open_chest_not_found ⟨[⟨1, 0, 0, some []⟩, ⟨2, 3, 1, some ["fish_red"]⟩], [⟨10, 2⟩]⟩
    ⟨1, 0, 0, some []⟩ 10 0 0 0 (by decide)

end Gamification
